import Mathlib

/-!
# Verification of the QPay/Shopify payment-gateway bridge

Shallow embedding of the core of the `QpayShopify` repository:

* the QPay client's token lifecycle and authenticated-request retry wrapper
  (`src/lib/qpay.js`, second `QPayClient` — the token-refresh variant),
* the invoice-creation endpoint and webhook handlers of `src/server.js`,
* the webhook-signature verification of `src/lib/qpay.js` and of the
  security middleware (`qpay-security` module),
* the invoice construction of `QPayClient.createInvoice` and the
  Shopify order-creation webhook (`src/api/webhook/orders/create.js`),
* the amount validation of the `api-old` invoice handler
  (`src/api-old/qpay/token.ts`, invoice POST handler).

Conventions of the embedding:

* Time is `Int`, milliseconds since the epoch (the JS `Date.now()` value).
* Monetary amounts are `Int`, whole MNT (the repository's data model:
  MNT has no subunit; all amounts in the repository's test fixtures are
  whole numbers), so `parseFloat` is the identity and
  `Math.round(x * 100) = x * 100` exactly.
* External I/O (the gateway's HTTP answers, the authentication outcome,
  the HMAC function of the `crypto` library) is passed in as explicit
  parameters; the functions return, besides their result, the counters of
  the side effects they performed (HTTP attempts, `authenticate()` calls,
  Shopify order updates).
* JS exceptions are `Except`; JS falsy checks on strings/numbers are made
  explicit (`"" `/`0`/`null` are falsy).
-/

namespace QpayShopify

/-! ## Token state (`QPayClient` fields `accessToken` / `tokenExpiry`) -/

/-- The mutable token fields of `QPayClient`:
`this.accessToken` and `this.tokenExpiry` (ms timestamp), both `null`
initially. -/
structure TokenState where
  accessToken : Option String
  tokenExpiry : Option Int
  deriving Repr, DecidableEq

/-- The fresh client state: `accessToken = null`, `tokenExpiry = null`. -/
def TokenState.initial : TokenState := ⟨none, none⟩

/-- The refresh condition of `getAccessToken`:
`!this.accessToken || Date.now() >= this.tokenExpiry`.
(JS compares `now >= null` as `now >= 0`; `Option.getD 0` mirrors that
coercion.) -/
def tokenNeedsRefresh (st : TokenState) (now : Int) : Bool :=
  st.accessToken.isNone || decide (now ≥ st.tokenExpiry.getD 0)

/-- The validity of the held token as the code treats it: the negation of
the refresh condition, i.e. a token is held and `now < tokenExpiry`. -/
def tokenIsValid (st : TokenState) (now : Int) : Bool :=
  !(tokenNeedsRefresh st now)

/-- The token-validity predicate in the words of the specification's
`TokenStore.isValid(now)` contract: a token is held and
`now < expiry - margin`. Used only to compare the code against the
spec; the code itself is `tokenIsValid`. -/
def specIsValid (margin : Int) (st : TokenState) (now : Int) : Bool :=
  st.accessToken.isSome && decide (now < st.tokenExpiry.getD 0 - margin)

/-- `QPayClient.authenticate` success data as far as the token store sees
it: the `access_token` string and `expires_in` (seconds). The outcome of
each `authenticate()` call is supplied externally as
`authOutcome : Nat → Option (String × Int)`, indexed by the number of
`authenticate()` calls already made; `none` is an authentication failure
(`authenticate` returned `success: false`, so `getAccessToken` throws). -/
abbrev AuthOutcome := Nat → Option (String × Int)

/-- One step of `getAccessToken(forceRefresh)`: if the token is missing,
expired, or `forceRefresh` is set, call `authenticate()` (consuming one
outcome and setting `accessToken` / `tokenExpiry := Date.now() +
expires_in * 1000`), else return the held token unchanged. The second
component is the updated count of `authenticate()` calls. -/
def getAccessTokenStep (authOutcome : AuthOutcome) (st : TokenState) (now : Int)
    (forceRefresh : Bool) (authCalls : Nat) :
    Except String (String × TokenState) × Nat :=
  if tokenNeedsRefresh st now || forceRefresh then
    match authOutcome authCalls with
    | some (tok, expiresIn) =>
        (.ok (tok, ⟨some tok, some (now + expiresIn * 1000)⟩), authCalls + 1)
    | none => (.error "Authentication failed", authCalls + 1)
  else
    -- the guard failed, so `st.accessToken` is set; `getD` mirrors
    -- `return this.accessToken`
    (.ok (st.accessToken.getD "", st), authCalls)

/-! ## `makeAuthenticatedRequest` (the retry wrapper) -/

/-- The error outcomes of `makeAuthenticatedRequest`: the re-thrown
`getAccessToken` exception, or the re-thrown axios error carrying the
HTTP status of the failed response. -/
inductive ReqError where
  | authFailed (msg : String)
  | httpError (status : Nat)
  deriving Repr, DecidableEq

/-- The observable outcome of one logical `makeAuthenticatedRequest`
call: its result, the total number of HTTP attempts issued, the total
number of `authenticate()` calls made, and the final token state. -/
structure ReqTrace where
  result : Except ReqError Nat
  attempts : Nat
  authCalls : Nat
  state : TokenState
  deriving Repr

/-- `QPayClient.makeAuthenticatedRequest(method, endpoint, data, retryCount)`
with `maxRetries = 2`.  `gateway i` is the HTTP status the gateway answers
to the `i`-th HTTP attempt of this logical call (axios resolves on 2xx and
throws otherwise).  On a 401 with `retryCount < maxRetries` the token is
cleared (`accessToken = null`, `tokenExpiry = null`) and the call recurses
with `retryCount + 1`; the recursive call passes
`forceRefresh = retryCount > 0` to `getAccessToken`. Any other error, or a
401 at the retry bound, is re-thrown. -/
def makeAuthenticatedRequest (authOutcome : AuthOutcome) (gateway : Nat → Nat)
    (now : Int) (st : TokenState) (retryCount : Nat)
    (attempts : Nat := 0) (authCalls : Nat := 0) : ReqTrace :=
  match getAccessTokenStep authOutcome st now (decide (0 < retryCount)) authCalls with
  | (.error msg, ac) => ⟨.error (.authFailed msg), attempts, ac, st⟩
  | (.ok (_, st'), ac) =>
    let status := gateway attempts
    if 200 ≤ status ∧ status < 300 then
      ⟨.ok status, attempts + 1, ac, st'⟩
    else if status = 401 ∧ retryCount < 2 then
      makeAuthenticatedRequest authOutcome gateway now TokenState.initial
        (retryCount + 1) (attempts + 1) ac
    else
      ⟨.error (.httpError status), attempts + 1, ac, st'⟩
  termination_by 3 - retryCount
  decreasing_by omega

/-! ## Hex encoding / decoding and `crypto.timingSafeEqual`

`Buffer.from(s, 'hex')` parses two hex digits per byte and stops at the
first character that is not a hex digit (an incomplete trailing pair is
dropped).  `digest('hex')` produces lowercase hex.  Digests and buffers
are `List Nat` of byte values. -/

/-- The value of one hex digit (`0-9a-fA-F`), `none` otherwise. -/
def hexVal (c : Char) : Option Nat :=
  if '0' ≤ c ∧ c ≤ '9' then some (c.toNat - '0'.toNat)
  else if 'a' ≤ c ∧ c ≤ 'f' then some (c.toNat - 'a'.toNat + 10)
  else if 'A' ≤ c ∧ c ≤ 'F' then some (c.toNat - 'A'.toNat + 10)
  else none

/-- `Buffer.from(·, 'hex')` on a character list: consume hex-digit pairs,
stop at the first invalid digit or incomplete pair. -/
def hexDecodeAux : List Char → List Nat
  | c1 :: c2 :: rest =>
    match hexVal c1, hexVal c2 with
    | some hi, some lo => (hi * 16 + lo) :: hexDecodeAux rest
    | _, _ => []
  | _ => []

/-- `Buffer.from(s, 'hex')` as a list of byte values. -/
def hexDecode (s : String) : List Nat := hexDecodeAux s.data

/-- The lowercase hex digit for `n < 16`. -/
def hexDigit (n : Nat) : Char :=
  if n < 10 then Char.ofNat ('0'.toNat + n) else Char.ofNat ('a'.toNat + n - 10)

/-- `digest('hex')`: two lowercase hex digits per byte. -/
def toHexChars : List Nat → List Char
  | [] => []
  | b :: rest => hexDigit (b / 16) :: hexDigit (b % 16) :: toHexChars rest

/-- `digest('hex')` as a string. -/
def toHex (d : List Nat) : String := ⟨toHexChars d⟩

/-- `crypto.timingSafeEqual(a, b)`: throws a `RangeError` when the buffers
differ in length, otherwise answers byte equality (in constant time — a
timing property of the library primitive, outside the embedding). -/
def timingSafeEqual (a b : List Nat) : Except String Bool :=
  if a.length = b.length then .ok (decide (a = b))
  else .error "RangeError: Input buffers must have the same byte length"

/-- The keyed HMAC-SHA256 of the `crypto` library, supplied externally:
`hmac key message` is the 32-byte digest. -/
abbrev Hmac := String → String → List Nat

/-- `QPayClient.verifyWebhookSignature(payload, signature)`
(`src/lib/qpay.js`): computes
`createHmac('sha256', process.env.WEBHOOK_SECRET).update(JSON.stringify(payload)).digest('hex')`
and compares `Buffer.from(signature, 'hex')` against
`Buffer.from(expected, 'hex')` with `timingSafeEqual`.  `body` is the
serialized payload.  Throws (`Except.error`) when the secret is not
configured (`createHmac` with an undefined key), when the signature
header is absent (`Buffer.from(undefined, 'hex')`), or when the decoded
signature's length differs from the 32-byte digest. -/
def verifyWebhookSignature (hmac : Hmac) (webhookSecret : Option String)
    (body : String) (signature : Option String) : Except String Bool :=
  match webhookSecret with
  | none => .error "TypeError: crypto.createHmac key is undefined"
  | some key =>
    let expected := hexDecode (toHex (hmac key body))
    match signature with
    | none => .error "TypeError: Buffer.from(undefined)"
    | some s => timingSafeEqual (hexDecode s) expected

/-- `signature.replace('sha256=', '')`: remove the first occurrence of
the pattern. -/
def replaceFirstAux (pat : List Char) : List Char → List Char
  | [] => []
  | c :: rest =>
    if pat = (c :: rest).take pat.length then (c :: rest).drop pat.length
    else c :: replaceFirstAux pat rest

/-- `signature.replace('sha256=', '')`. -/
def stripSha256 (s : String) : String := ⟨replaceFirstAux "sha256=".data s.data⟩

/-- `verifyQPaySignature` of the qpay-security middleware: `none` means
`next()` (request passed on to the handler), `some status` an immediate
rejection.  With no `QPAY_WEBHOOK_SECRET`, verification is skipped; a
missing header is a 401; the `timingSafeEqual` comparison runs inside
`try`/`catch`, so a thrown length mismatch is also a 401. -/
def verifyQPaySignatureMw (hmac : Hmac) (qpaySecret : Option String)
    (body : String) (sig : Option String) : Option Nat :=
  match qpaySecret with
  | none => none
  | some key =>
    match sig with
    | none => some 401
    | some s =>
      let expected := hexDecode (toHex (hmac key body))
      match timingSafeEqual (hexDecode (stripSha256 s)) expected with
      | .error _ => some 401
      | .ok true => none
      | .ok false => some 401

/-! ## Payment records and the store interface -/

/-- The `orderPayment` row (Prisma model) as the handlers read and write
it. -/
structure PaymentRecord where
  id : Nat
  shopifyOrderId : String
  qpayInvoiceId : String
  amount : Int
  currency : String
  status : String
  paidAt : Option Int
  transactionId : Option String
  qrCode : String
  createdAt : Int
  deriving Repr, DecidableEq

abbrev PaymentDb := List PaymentRecord

/-- `getPaymentByInvoiceId` / `getOrderPaymentByInvoiceId`. -/
def getPaymentByInvoiceId (db : PaymentDb) (inv : String) : Option PaymentRecord :=
  db.find? (fun r => r.qpayInvoiceId = inv)

/-- `getPaymentByOrderId` / `getOrderPaymentByShopifyId`. -/
def getPaymentByOrderId (db : PaymentDb) (oid : String) : Option PaymentRecord :=
  db.find? (fun r => r.shopifyOrderId = oid)

/-- `updateOrderPayment(id, data)`: rewrite the row with the given id. -/
def updateOrderPayment (db : PaymentDb) (id : Nat)
    (f : PaymentRecord → PaymentRecord) : PaymentDb :=
  db.map (fun r => if r.id = id then f r else r)

/-- The inbound QPay webhook payload (JSON body), every field optional. -/
structure WebhookPayload where
  invoice_id : Option String
  payment_status : Option String
  payment_amount : Option Int
  sender_invoice_no : Option String
  payment_id : Option String
  paid_date : Option Int
  deriving Repr, DecidableEq

/-- JS truthiness of an optional string (`undefined` and `""` are falsy). -/
def jsTruthyStr (s : Option String) : Bool :=
  match s with
  | some s => decide (s ≠ "")
  | none => false

/-- JS truthiness of an optional number (`undefined` and `0` are falsy). -/
def jsTruthyInt (n : Option Int) : Bool :=
  match n with
  | some n => decide (n ≠ 0)
  | none => false

/-! ## The legacy `/api/webhook` handler (`src/server.js`) -/

/-- Outcome of one webhook-handler invocation: HTTP status, the `success`
flag of the JSON answer, the store afterwards, and how many Shopify
order-update side effects were triggered (the `createTransaction` /
`updateOrderFinancialStatus` / `addOrderNote` block counts as one). -/
structure HandlerResult where
  httpStatus : Nat
  success : Bool
  db : PaymentDb
  shopifyUpdates : Nat
  deriving Repr

/-- The body of the legacy `/api/webhook` handler after the signature
check (`src/server.js` lines 495-580): missing `invoice_id` or
`payment_status` → 400; record not found → 404; otherwise the record is
rewritten unconditionally (`status := payment_status`,
`paidAt := payment_status = PAID ? (paid_date ?? now) : null`,
`transactionId := payment_id`) and, when Shopify is configured, the
order-update block runs for `PAID` (capture transaction, financial
status, note) and the failure-note block for `FAILED`. -/
def legacyWebhookCore (shopifyConfigured : Bool) (db : PaymentDb) (now : Int)
    (p : WebhookPayload) : HandlerResult :=
  match p.invoice_id, p.payment_status with
  | some inv, some st =>
    if inv = "" ∨ st = "" then ⟨400, false, db, 0⟩
    else
      match getPaymentByInvoiceId db inv with
      | none => ⟨404, false, db, 0⟩
      | some rec =>
        let paidAt : Option Int :=
          if st = "PAID" then some (p.paid_date.getD now) else none
        let db' := updateOrderPayment db rec.id (fun r =>
          { r with status := st, paidAt := paidAt, transactionId := p.payment_id })
        let upd : Nat :=
          if shopifyConfigured then
            (if st = "PAID" then 1 else if st = "FAILED" then 1 else 0)
          else 0
        ⟨200, true, db', upd⟩
  | _, _ => ⟨400, false, db, 0⟩

/-- The legacy `/api/webhook` handler (`src/server.js` lines 466-589),
including its own signature check: when `QPAY_WEBHOOK_SECRET` is set it
calls `qpayClient.verifyWebhookSignature` (which keys the HMAC with
`WEBHOOK_SECRET`); a thrown exception lands in the handler's `catch` and
answers 500, a `false` answers 401 with no store mutation, and otherwise
(or when no `QPAY_WEBHOOK_SECRET` is set) processing proceeds.  `body`
is the serialized payload, `sig` the
`x-qpay-signature || signature` header. -/
def legacyWebhookHandler (hmac : Hmac) (qpaySecret webhookSecret : Option String)
    (shopifyConfigured : Bool) (db : PaymentDb) (now : Int) (body : String)
    (p : WebhookPayload) (sig : Option String) : HandlerResult :=
  match qpaySecret with
  | some _ =>
    match verifyWebhookSignature hmac webhookSecret body sig with
    | .error _ => ⟨500, false, db, 0⟩
    | .ok false => ⟨401, false, db, 0⟩
    | .ok true => legacyWebhookCore shopifyConfigured db now p
  | none => legacyWebhookCore shopifyConfigured db now p

/-- The deployed legacy route: `qpaySecurityMiddleware` first (its header
lookup is `x-qpay-signature || signature || x-signature`), then the
handler (whose own lookup is `x-qpay-signature || signature`). -/
def legacyWebhookRoute (hmac : Hmac) (qpaySecret webhookSecret : Option String)
    (shopifyConfigured : Bool) (db : PaymentDb) (now : Int) (body : String)
    (p : WebhookPayload) (xQpaySig sigHdr xSig : Option String) : HandlerResult :=
  match verifyQPaySignatureMw hmac qpaySecret body ((xQpaySig <|> sigHdr) <|> xSig) with
  | some status => ⟨status, false, db, 0⟩
  | none =>
    legacyWebhookHandler hmac qpaySecret webhookSecret shopifyConfigured db now
      body p (xQpaySig <|> sigHdr)

/-- The `/api/webhook/qpay` handler body (`src/server.js` lines 426-457),
after the security middleware: missing `invoice_id` → 400; no matching
record → 404 `Order not found`; otherwise the record's status is set to
`paid`/`failed` from the notification and, on `PAID`, the Shopify order
is fulfilled (one order-update side effect). -/
def qpayWebhookCore (db : PaymentDb) (p : WebhookPayload) : HandlerResult :=
  match p.invoice_id with
  | none => ⟨400, false, db, 0⟩
  | some inv =>
    if inv = "" then ⟨400, false, db, 0⟩
    else
      match getPaymentByInvoiceId db inv with
      | none => ⟨404, false, db, 0⟩
      | some rec =>
        let newStatus := if p.payment_status = some "PAID" then "paid" else "failed"
        let db' := updateOrderPayment db rec.id (fun r =>
          { r with status := newStatus, transactionId := p.payment_id })
        ⟨200, true, db', if p.payment_status = some "PAID" then 1 else 0⟩

/-! ## `/api/order-status` (`src/server.js` lines 592-682) -/

/-- Outcome of one status poll: HTTP status, store afterwards, number of
gateway `payment/check` calls, number of Shopify order updates, and the
payment status reported back. -/
structure StatusResult where
  httpStatus : Nat
  db : PaymentDb
  gatewayCalls : Nat
  shopifyUpdates : Nat
  reportedStatus : Option String
  deriving Repr

/-- The `/api/order-status` handler: look the record up by order id or
invoice id; only a `PENDING` record triggers a gateway
`checkInvoiceStatus` call (`gatewayAnswer` is its result —
`none` for a failed check, otherwise the gateway's `payment_status` and
`payment_id`); on a gateway `PAID` the record is transitioned and, when
Shopify is configured, the order updated. A non-`PENDING` record is
answered directly from the store. -/
def orderStatusHandler (db : PaymentDb) (key : String) (byOrder : Bool)
    (gatewayAnswer : Option (String × Option String)) (shopifyConfigured : Bool)
    (now : Int) : StatusResult :=
  match (if byOrder then getPaymentByOrderId db key else getPaymentByInvoiceId db key) with
  | none => ⟨404, db, 0, 0, none⟩
  | some rec =>
    if rec.status = "PENDING" then
      match gatewayAnswer with
      | none => ⟨200, db, 1, 0, some rec.status⟩
      | some (st, pid) =>
        if st = "PAID" then
          let db' := updateOrderPayment db rec.id (fun r =>
            { r with status := "PAID", paidAt := some now, transactionId := pid })
          ⟨200, db', 1, if shopifyConfigured then 1 else 0, some "PAID"⟩
        else ⟨200, db, 1, 0, some rec.status⟩
    else ⟨200, db, 0, 0, some rec.status⟩

/-! ## `/api/create-invoice` (`src/server.js` lines 224-333) -/

/-- Outcome of one `/api/create-invoice` invocation: HTTP status,
`success` flag, the invoice id answered, the store afterwards, and the
number of gateway invoice-creation requests issued. -/
structure CreateResult where
  httpStatus : Nat
  success : Bool
  invoiceId : Option String
  db : PaymentDb
  gatewayCalls : Nat
  deriving Repr

/-- The `/api/create-invoice` handler: `!orderId || !amount` → 400 (JS
falsiness: a zero or missing amount is rejected, a negative one is not);
an existing record for `orderId` with status ≠ `FAILED` is answered as
`Invoice already exists` with its invoice id, touching neither store nor
gateway; otherwise one gateway invoice creation is issued
(`gatewayResp = some (invoiceId, qr)` on success, `none` on failure →
500) and on success a new `PENDING` record is appended. -/
def createInvoiceEndpoint (db : PaymentDb) (orderId : Option String)
    (amount : Option Int) (currency : String)
    (gatewayResp : Option (String × String)) (now : Int) (freshId : Nat) :
    CreateResult :=
  match orderId, amount with
  | some oid, some amt =>
    if oid = "" ∨ amt = 0 then ⟨400, false, none, db, 0⟩
    else
      let create : CreateResult :=
        match gatewayResp with
        | none => ⟨500, false, none, db, 1⟩
        | some (invId, qr) =>
          ⟨200, true, some invId,
            db ++ [⟨freshId, oid, invId, amt, currency, "PENDING", none, none, qr, now⟩], 1⟩
      match getPaymentByOrderId db oid with
      | some rec =>
        if rec.status = "FAILED" then create
        else ⟨200, true, some rec.qpayInvoiceId, db, 0⟩
      | none => create
  | _, _ => ⟨400, false, none, db, 0⟩

/-! ## Invoice construction in `QPayClient.createInvoice` (`src/lib/qpay.js`) -/

/-- A Shopify line item as `createInvoice` reads it. -/
structure JsLineItem where
  title : Option String
  quantity : Option Int
  price : Option Int
  variant_title : Option String
  deriving Repr, DecidableEq

/-- The order data handed to `QPayClient.createInvoice`. -/
structure OrderData where
  orderId : String
  orderNumber : String
  amount : Int
  lineItems : Option (List JsLineItem)
  deriving Repr, DecidableEq

/-- A line of the gateway invoice request.  The code serializes
`line_quantity` and `line_unit_price` as decimal strings; the numeric
values are modelled. -/
structure InvoiceLine where
  line_description : String
  line_quantity : Int
  line_unit_price : Int
  deriving Repr, DecidableEq

/-- JS `x || d` on an optional number (`0` falls through to the default). -/
def jsOrInt (v : Option Int) (d : Int) : Int :=
  match v with
  | some x => if x = 0 then d else x
  | none => d

/-- The `lines` array of the invoice request:
`orderData.lineItems?.map(item => { line_quantity: item.quantity || 1,
line_unit_price: Math.round((item.price || 0) * 100), ... }) ||
[{ line_quantity: '1', line_unit_price: Math.round(orderData.amount * 100), ... }]`.
`Math.round` is exact on the whole-MNT amounts modelled here.  (An empty
`lineItems` array is truthy in JS, so the synthetic line is used only
when `lineItems` is absent.) -/
def buildLines (od : OrderData) : List InvoiceLine :=
  match od.lineItems with
  | some items => items.map (fun it =>
      ⟨it.title.getD "Product", jsOrInt it.quantity 1, (jsOrInt it.price 0) * 100⟩)
  | none => [⟨"Order #" ++ od.orderNumber, 1, od.amount * 100⟩]

/-- The fields of the gateway invoice request relevant here. -/
structure InvoiceData where
  invoice_code : String
  sender_invoice_no : String
  amount : Int
  lines : List InvoiceLine
  deriving Repr, DecidableEq

/-- The invoice request `QPayClient.createInvoice` builds:
`amount: parseFloat(orderData.amount)` (identity on whole-MNT values)
and the `lines` above. -/
def buildInvoiceData (invoiceCode : String) (od : OrderData) : InvoiceData :=
  ⟨invoiceCode, od.orderId, od.amount, buildLines od⟩

/-- `Σ quantity × unit price` over the request's lines. -/
def lineSum (lines : List InvoiceLine) : Int :=
  (lines.map (fun l => l.line_quantity * l.line_unit_price)).sum

/-- `QPayClient.createInvoice` performs no validation of the order data:
it builds the request and issues exactly one gateway `POST /invoice`
(through `makeAuthenticatedRequest`).  The result is the request sent
and the count of gateway invoice-creation calls. -/
def createInvoiceClient (invoiceCode : String) (od : OrderData) : InvoiceData × Nat :=
  (buildInvoiceData invoiceCode od, 1)

/-! ## The Shopify order-creation webhook
(`src/api/webhook/orders/create.js`) -/

/-- A Shopify order line item as the order-creation webhook reads it. -/
structure ShopifyLineItem where
  title : String
  quantity : Int
  price : Int
  deriving Repr, DecidableEq

/-- The invoice request built by the order-creation webhook:
`amount: Math.round(parseFloat(payload.total_price) * 100)` and
`line_unit_price: Math.round(parseFloat(item.price) * 100)` — the
top-level amount itself is multiplied by 100 on this path. -/
def orderCreateInvoiceData (orderNumber : String) (totalPrice : Int)
    (items : List ShopifyLineItem) : InvoiceData :=
  ⟨"SHOPIFY-" ++ orderNumber, orderNumber, totalPrice * 100,
    items.map (fun it => ⟨it.title, it.quantity, it.price * 100⟩)⟩

/-! ## The `api-old` invoice POST handler (`src/api-old/qpay/token.ts`,
invoice handler) -/

/-- The amount validation of the `api-old` invoice POST handler:
`!orderId || !amount` → 400, then
`typeof amount !== 'number' || amount <= 0` → 400, all before any
network call; in test mode a mock invoice is answered without network;
otherwise one gateway call is made.  Result: HTTP status and number of
network calls.  (QPay credentials are assumed configured.) -/
def apiOldCreateInvoice (orderId : Option String) (amount : Option Int)
    (isTestMode gatewayOk : Bool) : Nat × Nat :=
  match orderId, amount with
  | some oid, some a =>
    if oid = "" ∨ a = 0 then (400, 0)
    else if a ≤ 0 then (400, 0)
    else if isTestMode then (200, 0)
    else if gatewayOk then (200, 1) else (500, 1)
  | _, _ => (400, 0)

/-! ## Helper lemmas -/

/-- Decoding the hex digit produced by `hexDigit` recovers the value. -/
theorem hexVal_hexDigit : ∀ n, n < 16 → hexVal (hexDigit n) = some n := by decide

/-- `Buffer.from(digest('hex'), 'hex')` recovers the digest bytes. -/
theorem hexDecodeAux_toHexChars (d : List Nat) (h : ∀ b ∈ d, b < 256) :
    hexDecodeAux (toHexChars d) = d := by
  induction d with
  | nil => rfl
  | cons b rest ih =>
    have hb : b < 256 := h b (by simp)
    have h1 : b / 16 < 16 := by omega
    have h2 : b % 16 < 16 := by omega
    have hrest : hexDecodeAux (toHexChars rest) = rest :=
      ih (fun x hx => h x (by simp [hx]))
    simp [toHexChars, hexDecodeAux, hexVal_hexDigit _ h1, hexVal_hexDigit _ h2, hrest]
    omega

/-- `hexDecode` inverts `toHex` on byte lists. -/
theorem hexDecode_toHex (d : List Nat) (h : ∀ b ∈ d, b < 256) :
    hexDecode (toHex d) = d :=
  hexDecodeAux_toHexChars d h

/-- A record appended behind a store that misses the order id is found by
the order-id lookup. -/
theorem getPaymentByOrderId_append_singleton (db : PaymentDb) (r : PaymentRecord)
    (oid : String) (h : getPaymentByOrderId db oid = none)
    (hr : r.shopifyOrderId = oid) :
    getPaymentByOrderId (db ++ [r]) oid = some r := by
  unfold getPaymentByOrderId at *
  rw [List.find?_append, h]
  simp [List.find?, hr]

/-! ## C1 — bounded retry of the authenticated request executor -/

/-- C1 counterexample: with a gateway that answers 401 to every attempt
(in particular to the first attempt and to the retried attempt) and
successful authentication, `makeAuthenticatedRequest` issues the HTTP
request three times — not at most twice — before giving up, so the claim
"the HTTP request is issued at most twice in total" is false. -/
theorem c1_counterexample :
    (makeAuthenticatedRequest (fun _ => some ("tok", 3600)) (fun _ => 401) 0
        TokenState.initial 0).attempts = 3 ∧
    (makeAuthenticatedRequest (fun _ => some ("tok", 3600)) (fun _ => 401) 0
        TokenState.initial 0).result = .error (.httpError 401) ∧
    ¬ (3 ≤ 2) := by
  refine ⟨?_, ?_, by decide⟩ <;>
  · simp [makeAuthenticatedRequest, getAccessTokenStep, tokenNeedsRefresh,
      TokenState.initial]

/-- C1 amended: if the gateway answers 401 to every attempt of a logical
call and authentication succeeds, `makeAuthenticatedRequest` (with its
hard-coded `maxRetries = 2`) terminates after exactly two retries,
re-throwing the 401 error (there is no distinct `AuthenticationFailed`
value): the HTTP request is issued exactly three times and
`authenticate()` runs at most three times (each of the two retries forces
one re-authentication, plus at most one initial token acquisition). -/
theorem c1_bounded_retry (A : AuthOutcome) (G : Nat → Nat) (now : Int)
    (st : TokenState) (hG : ∀ i, G i = 401) (hA : ∀ n, (A n).isSome = true) :
    (makeAuthenticatedRequest A G now st 0).result = .error (.httpError 401) ∧
    (makeAuthenticatedRequest A G now st 0).attempts = 3 ∧
    2 ≤ (makeAuthenticatedRequest A G now st 0).authCalls ∧
    (makeAuthenticatedRequest A G now st 0).authCalls ≤ 3 := by
  obtain ⟨p0, h0⟩ := Option.isSome_iff_exists.mp (hA 0)
  obtain ⟨p1, h1⟩ := Option.isSome_iff_exists.mp (hA 1)
  obtain ⟨p2, h2⟩ := Option.isSome_iff_exists.mp (hA 2)
  by_cases hn : tokenNeedsRefresh st now
  · simp [makeAuthenticatedRequest, getAccessTokenStep, hn, hG, h0, h1, h2]
  · simp [makeAuthenticatedRequest, getAccessTokenStep, hn, hG, h0, h1, h2]

/-- Witness for `c1_bounded_retry` at a concrete always-401 gateway. -/
theorem c1_bounded_retry_witness :
    (makeAuthenticatedRequest (fun _ => some ("tok", 3600)) (fun _ => 401) 0
        ⟨some "old", some 50⟩ 0).result = .error (.httpError 401) ∧
    (makeAuthenticatedRequest (fun _ => some ("tok", 3600)) (fun _ => 401) 0
        ⟨some "old", some 50⟩ 0).attempts = 3 ∧
    2 ≤ (makeAuthenticatedRequest (fun _ => some ("tok", 3600)) (fun _ => 401) 0
        ⟨some "old", some 50⟩ 0).authCalls ∧
    (makeAuthenticatedRequest (fun _ => some ("tok", 3600)) (fun _ => 401) 0
        ⟨some "old", some 50⟩ 0).authCalls ≤ 3 :=
  c1_bounded_retry (fun _ => some ("tok", 3600)) (fun _ => 401) 0
    ⟨some "old", some 50⟩ (fun _ => rfl) (fun _ => rfl)

/-! ## C2 — token validity and reuse -/

/-- C2 counterexample: the client treats a token expiring at t = 1000000
ms as valid at t = 999999 ms, although with the claimed 5-minute safety
margin (300000 ms) the token should already count as invalid — the code
applies no margin. -/
theorem c2_counterexample :
    tokenIsValid ⟨some "t", some 1000000⟩ 999999 = true ∧
    specIsValid 300000 ⟨some "t", some 1000000⟩ 999999 = false := by
  constructor <;> rfl

/-- C2 amended: the client treats a token as valid iff one is held and
the current time is strictly below its expiry, with no safety margin
(equivalently, the spec's `isValid` with margin 0); and for consecutive
`getAccessToken` calls while the held token is inside this window, both
calls return the identical held token, leave the state untouched and make
no `authenticate()` call. -/
theorem c2_token_reuse (A : AuthOutcome) (st : TokenState) (now1 now2 : Int)
    (ac : Nat) (h1 : tokenIsValid st now1 = true)
    (h2 : tokenIsValid st now2 = true) :
    (∀ s n, tokenIsValid s n = specIsValid 0 s n) ∧
    getAccessTokenStep A st now1 false ac = (.ok (st.accessToken.getD "", st), ac) ∧
    getAccessTokenStep A st now2 false ac = (.ok (st.accessToken.getD "", st), ac) := by
  refine ⟨fun s n => ?_, ?_, ?_⟩
  · cases hs : s.accessToken <;>
      simp [tokenIsValid, specIsValid, tokenNeedsRefresh, hs]
    simp [← decide_not, decide_eq_decide]
  · simp only [tokenIsValid, Bool.not_eq_true'] at h1
    simp [getAccessTokenStep, h1]
  · simp only [tokenIsValid, Bool.not_eq_true'] at h2
    simp [getAccessTokenStep, h2]

/-- Witness for `c2_token_reuse`: a token expiring at t = 1000 reused at
t = 0 and t = 500. -/
theorem c2_token_reuse_witness :
    (∀ s n, tokenIsValid s n = specIsValid 0 s n) ∧
    getAccessTokenStep (fun _ => none) ⟨some "tok", some 1000⟩ 0 false 0 =
      (.ok ("tok", ⟨some "tok", some 1000⟩), 0) ∧
    getAccessTokenStep (fun _ => none) ⟨some "tok", some 1000⟩ 500 false 0 =
      (.ok ("tok", ⟨some "tok", some 1000⟩), 0) :=
  c2_token_reuse (fun _ => none) ⟨some "tok", some 1000⟩ 0 500 0 rfl rfl

/-! ## C3 — (non-)monotonicity of terminal payment records -/

/-- A record already in the terminal `PAID` state, paid at t = 100. -/
def sampleRecPaid : PaymentRecord :=
  ⟨1, "ord1", "inv1", 1000, "MNT", "PAID", some 100, some "tx0", "qr", 0⟩

/-- A re-delivered `PAID` notification for that record, without a
`paid_date` field. -/
def samplePaidNotif : WebhookPayload :=
  ⟨some "inv1", some "PAID", some 1000, none, some "tx1", none⟩

/-- C3 counterexample: re-delivering a `PAID` notification at t = 200 for
a record that is already `PAID` (paid at t = 100) makes the legacy
webhook handler overwrite the paid timestamp (100 → 200) and the
transaction id, and trigger the Shopify order update again — the claim
that the record stays unchanged and no side effect fires is false. -/
theorem c3_counterexample :
    (legacyWebhookCore true [sampleRecPaid] 200 samplePaidNotif).shopifyUpdates = 1 ∧
    (legacyWebhookCore true [sampleRecPaid] 200 samplePaidNotif).db =
      [{ sampleRecPaid with paidAt := some 200, transactionId := some "tx1" }] ∧
    sampleRecPaid.paidAt = some 100 ∧ ¬ ((200 : Int) = 100) := by
  refine ⟨rfl, ?_, rfl, by decide⟩
  rfl

/-- C3 amended: the webhook handler does not respect terminality — for a
record that is already `paid` or `failed`, a re-delivered `PAID`
notification unconditionally overwrites its status, paid timestamp
(`paid_date` of the notification, defaulting to the processing time) and
transaction id, re-triggers the Shopify order update when configured, and
returns success; the status-poll path, by contrast, answers a terminal
record directly from the store, leaving it unchanged and calling neither
the gateway nor Shopify. -/
theorem c3_terminal_not_respected (db : PaymentDb) (rec : PaymentRecord)
    (inv : String) (p : WebhookPayload) (conf : Bool) (now : Int) (key : String)
    (byOrder : Bool) (gw : Option (String × Option String))
    (hfind : getPaymentByInvoiceId db inv = some rec)
    (hterm : rec.status = "PAID" ∨ rec.status = "FAILED")
    (hinv : p.invoice_id = some inv) (hne : inv ≠ "")
    (hst : p.payment_status = some "PAID")
    (hkey : (if byOrder then getPaymentByOrderId db key
             else getPaymentByInvoiceId db key) = some rec) :
    legacyWebhookCore conf db now p =
      ⟨200, true,
        updateOrderPayment db rec.id (fun r =>
          { r with status := "PAID", paidAt := some (p.paid_date.getD now),
                   transactionId := p.payment_id }),
        if conf then 1 else 0⟩ ∧
    orderStatusHandler db key byOrder gw conf now = ⟨200, db, 0, 0, some rec.status⟩ := by
  have hnp : rec.status ≠ "PENDING" := by
    rcases hterm with h | h <;> simp [h]
  constructor
  · simp [legacyWebhookCore, hinv, hst, hne, hfind]
  · simp [orderStatusHandler, hkey, hnp]

/-- Witness for `c3_terminal_not_respected` on the concrete paid record. -/
theorem c3_terminal_not_respected_witness :
    legacyWebhookCore true [sampleRecPaid] 200 samplePaidNotif =
      ⟨200, true,
        updateOrderPayment [sampleRecPaid] sampleRecPaid.id (fun r =>
          { r with status := "PAID",
                   paidAt := some (samplePaidNotif.paid_date.getD 200),
                   transactionId := samplePaidNotif.payment_id }),
        if true then 1 else 0⟩ ∧
    orderStatusHandler [sampleRecPaid] "inv1" false none true 200 =
      ⟨200, [sampleRecPaid], 0, 0, some sampleRecPaid.status⟩ :=
  c3_terminal_not_respected [sampleRecPaid] sampleRecPaid "inv1" samplePaidNotif
    true 200 "inv1" false none rfl (Or.inl rfl) rfl (by decide) rfl rfl

/-! ## C4 — idempotent invoice creation -/

/-- C4: a first `/api/create-invoice` call for an order with no existing
record creates one `PENDING` record and answers the gateway's invoice id;
a second call for the same order then answers the same invoice id,
leaves the store unchanged, and issues no gateway request. -/
theorem c4_idempotent_create (db : PaymentDb) (oid : String) (amt : Int)
    (cur cur2 : String) (inv qr : String) (now now2 : Int) (id1 id2 : Nat)
    (gw2 : Option (String × String)) (hoid : oid ≠ "") (hamt : amt ≠ 0)
    (hnone : getPaymentByOrderId db oid = none) :
    (createInvoiceEndpoint db (some oid) (some amt) cur (some (inv, qr)) now
        id1).invoiceId = some inv ∧
    (createInvoiceEndpoint db (some oid) (some amt) cur (some (inv, qr)) now
        id1).db.length = db.length + 1 ∧
    (createInvoiceEndpoint
        (createInvoiceEndpoint db (some oid) (some amt) cur (some (inv, qr)) now
          id1).db (some oid) (some amt) cur2 gw2 now2 id2).invoiceId = some inv ∧
    (createInvoiceEndpoint
        (createInvoiceEndpoint db (some oid) (some amt) cur (some (inv, qr)) now
          id1).db (some oid) (some amt) cur2 gw2 now2 id2).db =
      (createInvoiceEndpoint db (some oid) (some amt) cur (some (inv, qr)) now
        id1).db ∧
    (createInvoiceEndpoint
        (createInvoiceEndpoint db (some oid) (some amt) cur (some (inv, qr)) now
          id1).db (some oid) (some amt) cur2 gw2 now2 id2).gatewayCalls = 0 := by
  have hfirst : createInvoiceEndpoint db (some oid) (some amt) cur
      (some (inv, qr)) now id1 =
      ⟨200, true, some inv,
        db ++ [⟨id1, oid, inv, amt, cur, "PENDING", none, none, qr, now⟩], 1⟩ := by
    simp [createInvoiceEndpoint, hoid, hamt, hnone]
  have hfound := getPaymentByOrderId_append_singleton db
    ⟨id1, oid, inv, amt, cur, "PENDING", none, none, qr, now⟩ oid hnone rfl
  rw [hfirst]
  simp [createInvoiceEndpoint, hoid, hamt, hfound]

/-- Witness for `c4_idempotent_create` on an empty store. -/
theorem c4_idempotent_create_witness :
    (createInvoiceEndpoint ([] : PaymentDb) (some "ord1") (some 1000) "MNT" (some ("inv1", "qr"))
        0 1).invoiceId = some "inv1" ∧
    (createInvoiceEndpoint ([] : PaymentDb) (some "ord1") (some 1000) "MNT" (some ("inv1", "qr"))
        0 1).db.length = ([] : PaymentDb).length + 1 ∧
    (createInvoiceEndpoint
        (createInvoiceEndpoint ([] : PaymentDb) (some "ord1") (some 1000) "MNT"
          (some ("inv1", "qr")) 0 1).db (some "ord1") (some 1000) "MNT" none 5
        2).invoiceId = some "inv1" ∧
    (createInvoiceEndpoint
        (createInvoiceEndpoint ([] : PaymentDb) (some "ord1") (some 1000) "MNT"
          (some ("inv1", "qr")) 0 1).db (some "ord1") (some 1000) "MNT" none 5
        2).db =
      (createInvoiceEndpoint ([] : PaymentDb) (some "ord1") (some 1000) "MNT"
        (some ("inv1", "qr")) 0 1).db ∧
    (createInvoiceEndpoint
        (createInvoiceEndpoint ([] : PaymentDb) (some "ord1") (some 1000) "MNT"
          (some ("inv1", "qr")) 0 1).db (some "ord1") (some 1000) "MNT" none 5
        2).gatewayCalls = 0 :=
  c4_idempotent_create ([] : PaymentDb) "ord1" 1000 "MNT" "MNT" "inv1" "qr" 0 5 1 2 none
    (by decide) (by decide) rfl

/-! ## C6 — outcome when no record matches a notification -/

/-- C6 counterexample: a well-formed `PAID` notification whose invoice id
matches no record is answered by the legacy webhook handler with HTTP 404
and `success: false` — an error response, not a success acknowledgment. -/
theorem c6_counterexample :
    legacyWebhookCore true [] 0 samplePaidNotif = ⟨404, false, [], 0⟩ ∧
    ¬ (404 = 200) := by
  exact ⟨rfl, by decide⟩

/-- C6 amended: when no PaymentRecord matches the notification's invoice
id, both webhook handlers answer HTTP 404 (`Payment record not found` /
`Order not found`) with `success: false`, mutate nothing and trigger no
side effect — the gateway receives an error response, not the ack-and-log
success the claim describes. -/
theorem c6_not_found_is_404 (db : PaymentDb) (p : WebhookPayload) (inv st : String)
    (conf : Bool) (now : Int) (hinv : p.invoice_id = some inv) (hne : inv ≠ "")
    (hst : p.payment_status = some st) (hstne : st ≠ "")
    (hnone : getPaymentByInvoiceId db inv = none) :
    legacyWebhookCore conf db now p = ⟨404, false, db, 0⟩ ∧
    qpayWebhookCore db p = ⟨404, false, db, 0⟩ := by
  constructor
  · simp [legacyWebhookCore, hinv, hst, hne, hstne, hnone]
  · simp [qpayWebhookCore, hinv, hne, hnone]

/-- Witness for `c6_not_found_is_404` on an empty store. -/
theorem c6_not_found_is_404_witness :
    legacyWebhookCore true [] 7 samplePaidNotif = ⟨404, false, [], 0⟩ ∧
    qpayWebhookCore [] samplePaidNotif = ⟨404, false, [], 0⟩ :=
  c6_not_found_is_404 [] samplePaidNotif "inv1" "PAID" true 7 rfl (by decide)
    rfl (by decide) rfl

/-! ## C5 — secret-gated signature verification -/

/-- C5: verification is performed only when a webhook secret is
configured. With no secret, the middleware passes every request through
and the legacy route reduces to plain notification processing; with a
secret, the HMAC-SHA256 of the serialized body is compared to the
hex-decoded signature header by `crypto.timingSafeEqual` (the library's
constant-time comparison), and a mismatching signature of the correct
length is rejected with 401 while the store is left untouched and no
side effect fires. -/
theorem c5_signature_gating (hmac : Hmac) (key : String) (wk : Option String)
    (body s : String) (sig : Option String) (conf : Bool) (db : PaymentDb)
    (now : Int) (p : WebhookPayload) (xq sh xs : Option String)
    (hbytes : ∀ b ∈ hmac key body, b < 256)
    (hlen : (hexDecode (stripSha256 s)).length = (hmac key body).length)
    (hneq : hexDecode (stripSha256 s) ≠ hmac key body) :
    (verifyQPaySignatureMw hmac none body sig = none ∧
      legacyWebhookRoute hmac none wk conf db now body p xq sh xs =
        legacyWebhookCore conf db now p) ∧
    (verifyQPaySignatureMw hmac (some key) body (some s) = some 401 ∧
      legacyWebhookRoute hmac (some key) wk conf db now body p (some s) none none =
        ⟨401, false, db, 0⟩) := by
  have hexp : hexDecode (toHex (hmac key body)) = hmac key body :=
    hexDecode_toHex _ hbytes
  have hmw : verifyQPaySignatureMw hmac (some key) body (some s) = some 401 := by
    simp [verifyQPaySignatureMw, hexp, timingSafeEqual, hlen, hneq]
  refine ⟨⟨rfl, rfl⟩, hmw, ?_⟩
  simp [legacyWebhookRoute, hmw]

/-- Witness for `c5_signature_gating`: a 32-byte digest of sevens against
an all-zero 64-hex-character signature. -/
theorem c5_signature_gating_witness :
    (verifyQPaySignatureMw (fun _ _ => List.replicate 32 7) none "b" none = none ∧
      legacyWebhookRoute (fun _ _ => List.replicate 32 7) none none true []
          0 "b" samplePaidNotif none none none =
        legacyWebhookCore true [] 0 samplePaidNotif) ∧
    (verifyQPaySignatureMw (fun _ _ => List.replicate 32 7) (some "k") "b"
        (some "0000000000000000000000000000000000000000000000000000000000000000") =
        some 401 ∧
      legacyWebhookRoute (fun _ _ => List.replicate 32 7) (some "k") none true []
          0 "b" samplePaidNotif
          (some "0000000000000000000000000000000000000000000000000000000000000000")
          none none =
        ⟨401, false, [], 0⟩) :=
  c5_signature_gating (fun _ _ => List.replicate 32 7) "k" none "b"
    "0000000000000000000000000000000000000000000000000000000000000000" none
    true [] 0 samplePaidNotif none none none
    (by decide) (by decide) (by decide)

/-! ## C9 — partiality of the signature comparison -/

/-- C9: the signature comparison is not total in the signature input.
For a signature whose hex decoding is not 32 bytes long, and for a
missing header, `QPayClient.verifyWebhookSignature` throws instead of
returning `false`; the legacy handler's `catch` turns this into a 500
internal error, while the security middleware catches the same condition
and answers 401. End to end, a valid signature carried only in the
`x-signature` header passes the middleware but makes the legacy handler
throw (its own header lookup misses `x-signature`), answering 500. -/
theorem c9_partial_signature_check (hmac : Hmac) (key qk : String)
    (body s xs : String) (conf : Bool) (db : PaymentDb) (now : Int)
    (p : WebhookPayload)
    (hbytes : ∀ b ∈ hmac key body, b < 256)
    (h32 : (hmac key body).length = 32)
    (hslen : (hexDecode s).length ≠ 32)
    (hmwlen : (hexDecode (stripSha256 s)).length ≠ 32)
    (hxs : hexDecode (stripSha256 xs) = hmac key body) :
    (∃ e, verifyWebhookSignature hmac (some key) body (some s) = .error e) ∧
    legacyWebhookHandler hmac (some qk) (some key) conf db now body p (some s) =
      ⟨500, false, db, 0⟩ ∧
    verifyQPaySignatureMw hmac (some key) body (some s) = some 401 ∧
    (∃ e, verifyWebhookSignature hmac (some key) body none = .error e) ∧
    legacyWebhookHandler hmac (some qk) (some key) conf db now body p none =
      ⟨500, false, db, 0⟩ ∧
    verifyQPaySignatureMw hmac (some key) body none = some 401 ∧
    legacyWebhookRoute hmac (some key) (some key) conf db now body p
        none none (some xs) = ⟨500, false, db, 0⟩ := by
  have hexp : hexDecode (toHex (hmac key body)) = hmac key body :=
    hexDecode_toHex _ hbytes
  have hser : verifyWebhookSignature hmac (some key) body (some s) =
      .error "RangeError: Input buffers must have the same byte length" := by
    simp [verifyWebhookSignature, hexp, timingSafeEqual, h32, hslen]
  have hner : verifyWebhookSignature hmac (some key) body none =
      .error "TypeError: Buffer.from(undefined)" := by
    simp [verifyWebhookSignature]
  refine ⟨⟨_, hser⟩, ?_, ?_, ⟨_, hner⟩, ?_, rfl, ?_⟩
  · simp [legacyWebhookHandler, hser]
  · have : (hexDecode (stripSha256 s)).length ≠
        (hexDecode (toHex (hmac key body))).length := by
      rw [hexp, h32]; exact hmwlen
    simp [verifyQPaySignatureMw, timingSafeEqual, this]
  · simp [legacyWebhookHandler, hner]
  · have hmwok : verifyQPaySignatureMw hmac (some key) body (some xs) = none := by
      simp [verifyQPaySignatureMw, hexp, timingSafeEqual, hxs]
    simp [legacyWebhookRoute, hmwok, legacyWebhookHandler, hner]

/-- Witness for `c9_partial_signature_check`: the digest is 32 bytes of
sevens, the bad signature is the 2-byte `abcd`, the valid one its hex
encoding in the `x-signature` header. -/
theorem c9_partial_signature_check_witness :
    (∃ e, verifyWebhookSignature (fun _ _ => List.replicate 32 7) (some "k") "b"
        (some "abcd") = .error e) ∧
    legacyWebhookHandler (fun _ _ => List.replicate 32 7) (some "k") (some "k")
        true [] 0 "b" samplePaidNotif (some "abcd") = ⟨500, false, [], 0⟩ ∧
    verifyQPaySignatureMw (fun _ _ => List.replicate 32 7) (some "k") "b"
        (some "abcd") = some 401 ∧
    (∃ e, verifyWebhookSignature (fun _ _ => List.replicate 32 7) (some "k") "b"
        none = .error e) ∧
    legacyWebhookHandler (fun _ _ => List.replicate 32 7) (some "k") (some "k")
        true [] 0 "b" samplePaidNotif none = ⟨500, false, [], 0⟩ ∧
    verifyQPaySignatureMw (fun _ _ => List.replicate 32 7) (some "k") "b" none =
      some 401 ∧
    legacyWebhookRoute (fun _ _ => List.replicate 32 7) (some "k") (some "k")
        true [] 0 "b" samplePaidNotif none none
        (some (toHex (List.replicate 32 7))) = ⟨500, false, [], 0⟩ :=
  c9_partial_signature_check (fun _ _ => List.replicate 32 7) "k" "k" "b"
    "abcd" (toHex (List.replicate 32 7)) true [] 0 samplePaidNotif
    (by decide) (by decide) (by decide) (by decide) (by decide)

/-! ## C7 — (absence of) amount/line-item validation -/

/-- The spec's scenario 6: amount 500 with one supplied line of
quantity 1 at unit price 400. -/
def sampleOrderMismatch : OrderData :=
  ⟨"order-2", "2", 500, some [⟨some "item", some 1, some 400, none⟩]⟩

/-- C7 counterexample: `createInvoice` issues the gateway request for an
order whose supplied line items sum (1 × 400 → 40000 after the ×100
conversion) differs from the amount (500) — there is no `ValidationError`
and no rejection before the gateway call, so the claim is false. -/
theorem c7_counterexample :
    (createInvoiceClient "INV" sampleOrderMismatch).2 = 1 ∧
    lineSum (createInvoiceClient "INV" sampleOrderMismatch).1.lines = 40000 ∧
    (createInvoiceClient "INV" sampleOrderMismatch).1.amount = 500 ∧
    ¬ ((40000 : Int) = 500) := by
  exact ⟨rfl, rfl, rfl, by decide⟩

/-- C7 amended: `createInvoice` performs no amount/line-item consistency
validation — every call issues exactly one gateway request, whatever the
supplied line items sum to; and when no line items are supplied, the
built invoice contains exactly one synthetic line whose
quantity × unit price is 100 × the amount (the unit price is
`Math.round(amount * 100)`), not the amount itself. -/
theorem c7_no_validation (code : String) (od : OrderData)
    (h : od.lineItems = none) :
    (∀ od2 : OrderData, (createInvoiceClient code od2).2 = 1) ∧
    buildLines od = [⟨"Order #" ++ od.orderNumber, 1, od.amount * 100⟩] ∧
    lineSum (buildLines od) = 100 * od.amount := by
  refine ⟨fun _ => rfl, by simp [buildLines, h], ?_⟩
  simp [buildLines, h, lineSum]
  ring

/-- Witness for `c7_no_validation` at amount 1000 with no line items. -/
theorem c7_no_validation_witness :
    (∀ od2 : OrderData, (createInvoiceClient "INV" od2).2 = 1) ∧
    buildLines ⟨"order-1", "7", 1000, none⟩ =
      [⟨"Order #" ++ "7", 1, 1000 * 100⟩] ∧
    lineSum (buildLines ⟨"order-1", "7", 1000, none⟩) = 100 * 1000 :=
  c7_no_validation "INV" ⟨"order-1", "7", 1000, none⟩ rfl

/-! ## C8 — rejection of non-positive amounts -/

/-- C8 counterexample: `/api/create-invoice` with amount −100 passes the
`!orderId || !amount` check (only falsy values are caught) and issues the
gateway invoice-creation request — a negative amount is not rejected
before the network call, so the claim is false. -/
theorem c8_counterexample :
    (createInvoiceEndpoint ([] : PaymentDb) (some "o1") (some (-100)) "MNT"
        (some ("inv", "qr")) 0 1).gatewayCalls = 1 ∧
    ((-100 : Int) < 0) ∧ ¬ ((1 : Nat) = 0) := by
  exact ⟨rfl, by decide, by decide⟩

/-- C8 amended: a zero (or missing) amount is rejected by
`/api/create-invoice` with 400 before any gateway call, and the `api-old`
invoice handler rejects every non-positive amount with 400 before any
network call; but `/api/create-invoice` does not reject negative amounts
— they proceed to the gateway request (and non-integer amounts are not
rejected on either path). -/
theorem c8_amount_validation (oid : String) (a : Int) (db : PaymentDb)
    (cur : String) (gw : Option (String × String)) (now : Int) (i : Nat)
    (tm gok : Bool) (ha : a ≤ 0) :
    createInvoiceEndpoint db (some oid) (some 0) cur gw now i =
      ⟨400, false, none, db, 0⟩ ∧
    apiOldCreateInvoice (some oid) (some a) tm gok = (400, 0) := by
  constructor
  · simp [createInvoiceEndpoint]
  · simp only [apiOldCreateInvoice]
    split
    · rfl
    · simp [ha]

/-- Witness for `c8_amount_validation` at amount −5. -/
theorem c8_amount_validation_witness :
    createInvoiceEndpoint ([] : PaymentDb) (some "o1") (some 0) "MNT" none 0 1 =
      ⟨400, false, none, ([] : PaymentDb), 0⟩ ∧
    apiOldCreateInvoice (some "o1") (some (-5)) false true = (400, 0) :=
  c8_amount_validation "o1" (-5) ([] : PaymentDb) "MNT" none 0 1 false true
    (by decide)

/-! ## C10 — inconsistent amount units within a built invoice -/

/-- C10: for a positive amount and no line items, the synthetic line of
the invoice built by `QPayClient.createInvoice` carries
quantity × unit price = 100 × the invoice's top-level `amount` field —
not the amount itself — and the Shopify order-creation webhook path
additionally multiplies the top-level amount by 100
(`Math.round(parseFloat(total_price) * 100)`). -/
theorem c10_unit_mismatch (code orderNumber : String) (od : OrderData)
    (tp : Int) (items : List ShopifyLineItem) (h : od.lineItems = none)
    (hpos : 0 < od.amount) :
    lineSum (buildInvoiceData code od).lines =
      100 * (buildInvoiceData code od).amount ∧
    lineSum (buildInvoiceData code od).lines ≠ (buildInvoiceData code od).amount ∧
    (orderCreateInvoiceData orderNumber tp items).amount = 100 * tp := by
  refine ⟨?_, ?_, ?_⟩
  · simp [buildInvoiceData, buildLines, h, lineSum]
    ring
  · simp [buildInvoiceData, buildLines, h, lineSum]
    omega
  · simp [orderCreateInvoiceData]
    ring

/-- Witness for `c10_unit_mismatch` at amount 1000 / total price 250. -/
theorem c10_unit_mismatch_witness :
    lineSum (buildInvoiceData "INV" ⟨"order-1", "7", 1000, none⟩).lines =
      100 * (buildInvoiceData "INV" ⟨"order-1", "7", 1000, none⟩).amount ∧
    lineSum (buildInvoiceData "INV" ⟨"order-1", "7", 1000, none⟩).lines ≠
      (buildInvoiceData "INV" ⟨"order-1", "7", 1000, none⟩).amount ∧
    (orderCreateInvoiceData "7" 250 []).amount = 100 * 250 :=
  c10_unit_mismatch "INV" "7" ⟨"order-1", "7", 1000, none⟩ 250 [] rfl
    (by decide)

end QpayShopify
